import Mathlib

/-!
Shallow embedding of `src/sentinel2_cloud_export.py`, a batch script that,
for each wildfire polygon and each year after the fire, queries the
Sentinel-2 archive, scores candidate images by cloud percentage inside the
area of interest (AOI), retries once in a fallback month when too cloudy,
submits an export job for acceptable candidates, and writes one CSV row
per attempt.

Modelling conventions:
* Images are records carrying the metadata and per-pixel data the script
  reads: the `system:index` join key, an acquisition date (as an integer
  ordinal comparable like a timestamp), a footprint (set of pixel ids used
  for the `filterBounds` intersection test), the `CLOUDY_PIXEL_PERCENTAGE`
  metadata, the B8 validity mask, and - for `S2_CLOUD_PROBABILITY` images -
  the per-pixel cloud probability.
* The remote Earth Engine service is an explicit environment `Env`: the two
  image catalogs, the rasterisation of a geometry into pixels for
  `reduceRegion` (`regionPixels`), the centroid longitude of a geometry
  (`centroidLon`), and two failure oracles saying whether a given `.getInfo()`
  network round trip raises: `sizeInfoFails` for `col.size().getInfo()`
  (which is *not* inside any `try`) and `cloudInfoFails` for
  `get_cloud_percentage(...).getInfo()` (which *is* inside a `try`).
* Geometry operations (`bounds`, `buffer`) and the cloud/shadow masking
  pipeline (`add_cld_shdw_mask`, `apply_cld_shdw_mask`, `median`, `clip`)
  execute remotely; no claim depends on their pixel semantics, so they are
  embedded as free constructors recording exactly which operations the
  script composes and with which arguments.
* Python exceptions are `Except Unit`; the CSV writer is modelled by
  returning the list of written rows in order; `task.start()` is modelled by
  returning the list of submitted export tasks.
* The recursive retry in `try_export_image` is embedded with explicit fuel
  (`try_export_image_aux`); `try_export_image` runs it with fuel 2, and the
  development proves fuel 2 is never exhausted (the retry recurses at most
  once).
-/

/-- Maximum percent of clouds allowed by the `CLOUDY_PIXEL_PERCENTAGE`
metadata filter (source line 20). -/
def CLOUD_FILTER : ℚ := 50

/-- Probability threshold above which a pixel counts as cloud (line 21). -/
def CLD_PRB_THRESH : ℚ := 30

/-- Darkness threshold for shadow detection (line 22); the shadow pipeline is
embedded as a free constructor, so this constant is recorded but not consumed. -/
def NIR_DRK_THRESH : ℚ := 15 / 100

/-- Shadow projection distance in km (line 23); see `NIR_DRK_THRESH`. -/
def CLD_PRJ_DIST : ℚ := 1

/-- Buffer in meters used to expand the cloud/shadow mask (line 24); see
`NIR_DRK_THRESH`. -/
def BUFFER : ℚ := 50

/-- Maximum percent of clouds tolerated in the final image (line 25). -/
def UMBRAL_NUBES : ℚ := 15

/-- A calendar date as constructed by `ee.Date.fromYMD`. -/
structure EDate where
  year : ℤ
  month : ℤ
  day : ℤ
  deriving DecidableEq

/-- Integer ordinal of a date, monotone in the calendar order on valid dates;
used to compare image acquisition dates against a `filterDate` window. -/
def EDate.ord (d : EDate) : ℤ := d.year * 10000 + d.month * 100 + d.day

/-- Geometry values the script builds: a fire feature's polygon and the
derived geometries `geometry().bounds()` and `.buffer(dist)`.  The operations
run on the remote service, so they are embedded as free constructors. -/
inductive Geom where
  | fireGeom (id : ℕ)
  | bounds (g : Geom)
  | buffer (g : Geom) (dist : ℚ)

/-- A `COPERNICUS/S2_SR_HARMONIZED` image: join key, acquisition date
ordinal, footprint, `CLOUDY_PIXEL_PERCENTAGE` metadata, and the B8 band's
validity mask. -/
structure SRImage where
  sysIndex : ℕ
  date : ℤ
  footprint : Finset ℕ
  cloudyPixelPercentage : ℚ
  b8mask : ℕ → Bool

/-- A `COPERNICUS/S2_CLOUD_PROBABILITY` image: join key, acquisition date
ordinal, footprint, and the `probability` band. -/
structure ProbImage where
  sysIndex : ℕ
  date : ℤ
  footprint : Finset ℕ
  prob : ℕ → ℚ

/-- An element of the joined collection: an SR image with its matching
s2cloudless image attached under the `s2cloudless` property. -/
structure JoinedImage where
  sr : SRImage
  s2cloudless : ProbImage

/-- The remote Earth Engine service as seen by the script: the two catalogs,
the rasterisation of a geometry for `reduceRegion`, the centroid longitude,
and the two `.getInfo()` failure oracles (keyed by the query's geometry and
date window). -/
structure Env where
  s2srCat : List SRImage
  probCat : List ProbImage
  regionPixels : Geom → Finset ℕ
  centroidLon : Geom → ℚ
  sizeInfoFails : Geom → EDate → EDate → Bool
  cloudInfoFails : Geom → EDate → EDate → Bool

/-- Embedding of `get_s2_sr_cld_col` (lines 35-55): filter the SR catalog by
bounds, date window and `CLOUDY_PIXEL_PERCENTAGE <= CLOUD_FILTER`, filter the
cloud-probability catalog by bounds and date window, and join them by
`system:index`, attaching the first matching probability image
(`ee.Join.saveFirst`, which drops primaries without a match). -/
def get_s2_sr_cld_col (env : Env) (aoi : Geom) (d1 d2 : EDate) : List JoinedImage :=
  let pix := env.regionPixels aoi
  let s2_sr_col := env.s2srCat.filter (fun i =>
    decide ((i.footprint ∩ pix).Nonempty) && decide (d1.ord ≤ i.date) &&
      decide (i.date < d2.ord) && decide (i.cloudyPixelPercentage ≤ CLOUD_FILTER))
  let s2_cloudless_col := env.probCat.filter (fun c =>
    decide ((c.footprint ∩ pix).Nonempty) && decide (d1.ord ≤ c.date) &&
      decide (c.date < d2.ord))
  s2_sr_col.filterMap (fun i =>
    (s2_cloudless_col.find? (fun c => c.sysIndex == i.sysIndex)).map
      (fun c => ⟨i, c⟩))

/-- Embedding of `get_cloud_percentage` (lines 95-109): mask cloud-probability
pixels strictly above `CLD_PRB_THRESH`, restrict to pixels valid in B8,
sum that mask over the AOI (`cloud_area`), sum the valid mask over the AOI
(`total_area`), and return `cloud_area / total_area * 100`. -/
def get_cloud_percentage (image : JoinedImage) (aoiPix : Finset ℕ) : ℚ :=
  let cloud_area : ℚ := ∑ p in aoiPix,
    if image.sr.b8mask p then
      (if CLD_PRB_THRESH < image.s2cloudless.prob p then 1 else 0)
    else 0
  let total_area : ℚ := ∑ p in aoiPix, if image.sr.b8mask p then 1 else 0
  cloud_area / total_area * 100

/-- Embedding of the inner `set_cloudiness` of `get_best_image_by_cloud_cover`
(lines 117-131): the same computation as `get_cloud_percentage`, whose result
is stored on the image as the `CLOUDY_PERCENT_AOI` property (here: paired
with the image). -/
def set_cloudiness (aoiPix : Finset ℕ) (img : JoinedImage) : JoinedImage × ℚ :=
  let cloud_area : ℚ := ∑ p in aoiPix,
    if img.sr.b8mask p then
      (if CLD_PRB_THRESH < img.s2cloudless.prob p then 1 else 0)
    else 0
  let total_area : ℚ := ∑ p in aoiPix, if img.sr.b8mask p then 1 else 0
  (img, cloud_area / total_area * 100)

/-- The sort key used by `col_with_cloud.sort('CLOUDY_PERCENT_AOI')`:
ascending order on the stored `CLOUDY_PERCENT_AOI` value. -/
def byPct (a b : JoinedImage × ℚ) : Prop := a.2 ≤ b.2

instance : DecidableRel byPct := fun a b => inferInstanceAs (Decidable (a.2 ≤ b.2))

instance : IsTotal (JoinedImage × ℚ) byPct := ⟨fun a b => le_total a.2 b.2⟩

instance : IsTrans (JoinedImage × ℚ) byPct := ⟨fun _ _ _ h1 h2 => le_trans h1 h2⟩

/-- Embedding of `get_best_image_by_cloud_cover` (lines 115-135): tag every
image of the collection with its `CLOUDY_PERCENT_AOI`, sort ascending by that
property, and take the first image. -/
def get_best_image_by_cloud_cover (col : List JoinedImage) (aoiPix : Finset ℕ) :
    Option JoinedImage :=
  let col_with_cloud := col.map (fun img => set_cloudiness aoiPix img)
  ((List.insertionSort byPct col_with_cloud).head?).map (fun p => p.1)

/-- An image-valued expression built by the masking pipeline.  The pixel
semantics of `add_cld_shdw_mask` / `apply_cld_shdw_mask` (cloud probability
bands, shadow projection, focal operations, line 61-89) run on the remote
service; the constructors record exactly which operations the script applies. -/
inductive EImg where
  | base (img : JoinedImage)
  | addCldShdwMask (i : EImg)
  | applyCldShdwMask (i : EImg)

/-- Embedding of `add_cld_shdw_mask` (lines 77-84) as a free constructor. -/
def add_cld_shdw_mask (i : EImg) : EImg := EImg.addCldShdwMask i

/-- Embedding of `apply_cld_shdw_mask` (lines 86-89) as a free constructor. -/
def apply_cld_shdw_mask (i : EImg) : EImg := EImg.applyCldShdwMask i

/-- A composite-valued expression: `col.median()` and `.clip(aoi)` as free
constructors. -/
inductive CImg where
  | median (imgs : List EImg)
  | clip (img : CImg) (region : Geom)

/-- Embedding of `getCloudFreeComposite` (lines 141-146): query the joined
collection, map the cloud/shadow mask construction and application over it,
take the median and clip to the AOI. -/
def getCloudFreeComposite (env : Env) (aoi : Geom) (d1 d2 : EDate) : CImg :=
  CImg.clip
    (CImg.median ((get_s2_sr_cld_col env aoi d1 d2).map
      (fun j => apply_cld_shdw_mask (add_cld_shdw_mask (EImg.base j)))))
    aoi

/-- One data row of the output CSV: name, optional cloud percentage (the
script writes `""` when it has none, modelled as `none`), status string. -/
structure Row where
  name : String
  pct : Option ℚ
  status : String
  deriving DecidableEq

/-- One field of a written CSV line. -/
inductive CsvField where
  | str (s : String)
  | num (q : ℚ)
  | empty
  deriving DecidableEq

/-- Serialisation of a data row as the three-field CSV line
`[nombre, cloud_percentage-or-empty, status]` the script writes. -/
def Row.toCsv (r : Row) : List CsvField :=
  [CsvField.str r.name,
   (match r.pct with
    | some q => CsvField.num q
    | none => CsvField.empty),
   CsvField.str r.status]

/-- The header line `["Name", "% Clouds", "Status"]` written first (line 234). -/
def headerLine : List CsvField :=
  [CsvField.str ("Name"), CsvField.str ("% Clouds"), CsvField.str ("Status")]

/-- An export job as submitted by `ee.batch.Export.image.toDrive` + `start()`
(lines 180-190). -/
structure ExportTask where
  image : CImg
  description : String
  folder : String
  fileName : String
  region : Geom
  crs : String
  scale : ℕ

/-- Result of one `try_export_image` call: the rows written, the export
tasks started, and either the returned boolean or a propagated exception. -/
abbrev TryResult := List Row × List ExportTask × Except Unit Bool

/-- Embedding of `try_export_image` (lines 148-193) with explicit recursion
fuel.  Control flow, in source order: `col.size().getInfo()` (may raise -
`sizeInfoFails` - and is not guarded); empty collection writes a
`"No images"` row and returns `False`; `get_best_image_by_cloud_cover` picks
the best image; the guarded `get_cloud_percentage(...).getInfo()` may raise
(`cloudInfoFails`), in which case a `"Cloud error"` row is written and
`False` returned; a percentage above `UMBRAL_NUBES` either retries with the
window end moved to July 15 of the same year (when the end month is June) or
writes a `"Discarded"` row and returns `False`; otherwise the composite is
exported and an `"Exported"` row written.  `none` means the fuel ran out
before the recursion did. -/
def try_export_image_aux :
    ℕ → Env → String → Geom → EDate → EDate → String → Option TryResult
  | 0, _, _, _, _, _, _ => none
  | fuel + 1, env, nombre, aoi, startD, endD, epsg =>
    if env.sizeInfoFails aoi startD endD then
      some ([], [], Except.error ())
    else if (get_s2_sr_cld_col env aoi startD endD).length = 0 then
      some ([⟨nombre, none, "No images"⟩], [], Except.ok false)
    else
      match get_best_image_by_cloud_cover (get_s2_sr_cld_col env aoi startD endD)
          (env.regionPixels aoi) with
      | none => some ([], [], Except.error ())
      | some img =>
        if env.cloudInfoFails aoi startD endD then
          some ([⟨nombre, none, "Cloud error"⟩], [], Except.ok false)
        else if UMBRAL_NUBES < get_cloud_percentage img (env.regionPixels aoi) then
          if endD.month = 6 then
            try_export_image_aux fuel env nombre aoi startD ⟨endD.year, 7, 15⟩ epsg
          else
            some ([⟨nombre, some (get_cloud_percentage img (env.regionPixels aoi)),
                    "Discarded"⟩], [], Except.ok false)
        else
          some ([⟨nombre, some (get_cloud_percentage img (env.regionPixels aoi)),
                  "Exported"⟩],
                [⟨getCloudFreeComposite env aoi startD endD, "S2_" ++ nombre,
                  "Incendios_Europa_años", nombre, aoi, epsg, 20⟩],
                Except.ok true)

/-- `try_export_image` proper: the recursion depth is at most 1 (proved
below), so fuel 2 computes the source function's behaviour. -/
def try_export_image (env : Env) (nombre : String) (aoi : Geom)
    (startD endD : EDate) (epsg : String) : Option TryResult :=
  try_export_image_aux 2 env nombre aoi startD endD epsg

/-- Python's `f"{z:02d}"` for the (always nonnegative, two-digit) UTM zone. -/
def pad2 (z : ℤ) : String :=
  if 0 ≤ z ∧ z < 10 then ("0") ++ toString z else toString z

/-- Python's `range(a, b)` over integers. -/
def pyRange (a b : ℤ) : List ℤ :=
  (List.range (b - a).toNat).map (fun i => a + Int.ofNat i)

/-- A fire feature: `id`, `initialdat` start date, geometry. -/
structure Fire where
  id : String
  initialdat : EDate
  geometry : Geom

/-- The body of the year loop of `process_feature` (lines 216-226): build the
window May 15 - June 15 of the year, call `try_export_image`, and catch any
exception it raises (the `except` clause only prints; it writes no row and
starts no task beyond what the call already did). -/
def yearAttempt (env : Env) (fid : String) (aoi : Geom) (epsg : String)
    (anio : ℤ) : List Row × List ExportTask :=
  match try_export_image env (fid ++ "_" ++ toString anio) aoi
      ⟨anio, 5, 15⟩ ⟨anio, 6, 15⟩ epsg with
  | some (rows, tasks, _) => (rows, tasks)
  | none => ([], [])

/-- Embedding of `process_feature` (lines 199-226): AOI = bounding box of the
fire geometry buffered by 3000 m; EPSG string from the UTM zone
`floor((lon + 180) / 6) + 1` of the AOI centroid longitude; then the year
loop `range(anioInicio + 1, 2024)`, accumulating the rows written and tasks
started in order. -/
def process_feature (env : Env) (incendio : Fire) : List Row × List ExportTask :=
  let aoi := Geom.buffer (Geom.bounds incendio.geometry) 3000
  let lon := env.centroidLon aoi
  let huso := ⌊(lon + 180) / 6⌋ + 1
  let epsg := "EPSG:258" ++ pad2 huso
  let anioInicio := incendio.initialdat.year
  (pyRange (anioInicio + 1) 2024).foldl
    (fun acc anio =>
      let r := yearAttempt env incendio.id aoi epsg anio
      (acc.1 ++ r.1, acc.2 ++ r.2))
    ([], [])

/-- Embedding of the main block (lines 232-237): write the header line, then
process every fire in order; the CSV file is the header followed by the
serialisation of every data row written. -/
def run_script (env : Env) (fires : List Fire) :
    List (List CsvField) × List ExportTask :=
  let res := fires.foldl
    (fun acc f =>
      let r := process_feature env f
      (acc.1 ++ r.1, acc.2 ++ r.2))
    (([] : List Row), ([] : List ExportTask))
  (headerLine :: res.1.map Row.toCsv, res.2)

/-- Example geometry: the AOI derived from fire feature 0. -/
def gAoi : Geom := Geom.buffer (Geom.bounds (Geom.fireGeom 0)) 3000

/-- Example window start: May 15, 2023. -/
def dMay : EDate := ⟨2023, 5, 15⟩

/-- Example window end: June 15, 2023. -/
def dJun : EDate := ⟨2023, 6, 15⟩

/-- Example SR image with a fully cloud-free probability partner. -/
def sr1 : SRImage := ⟨1, 20230520, {0, 1}, 10, fun _ => true⟩

/-- Cloud-probability partner of `sr1`: probability 10 everywhere. -/
def pr1 : ProbImage := ⟨1, 20230520, {0, 1}, fun _ => 10⟩

/-- Example SR image whose partner is cloudy on half the AOI. -/
def sr2 : SRImage := ⟨2, 20230521, {0, 1}, 20, fun _ => true⟩

/-- Cloud-probability partner of `sr2`: probability 80 on pixel 0, 10 on the
rest, giving a 50 percent AOI cloud percentage over pixels `{0, 1}`. -/
def pr2 : ProbImage := ⟨2, 20230521, {0, 1}, fun p => if p = 0 then 80 else 10⟩

/-- A clean environment: both images available, no network failures,
centroid longitude -3 (UTM zone 30). -/
def envA : Env :=
  ⟨[sr1, sr2], [pr1, pr2], fun _ => {0, 1}, fun _ => -3,
   fun _ _ _ => false, fun _ _ _ => false⟩

/-- Example fire: start date August 1, 2022, so the year loop covers 2023. -/
def fireA : Fire := ⟨"F", ⟨2022, 8, 1⟩, Geom.fireGeom 0⟩

/-- The two copies of the AOI cloud-percentage computation agree: the value
`set_cloudiness` stores as `CLOUDY_PERCENT_AOI` is the value
`get_cloud_percentage` computes. -/
lemma set_cloudiness_snd (aoiPix : Finset ℕ) (img : JoinedImage) :
    (set_cloudiness aoiPix img).2 = get_cloud_percentage img aoiPix := rfl

lemma set_cloudiness_fst (aoiPix : Finset ℕ) (img : JoinedImage) :
    (set_cloudiness aoiPix img).1 = img := rfl

/-- On a nonempty collection, `get_best_image_by_cloud_cover` returns an
element of the collection whose AOI cloud percentage is minimal. -/
lemma get_best_spec (col : List JoinedImage) (aoiPix : Finset ℕ)
    (h : col ≠ []) :
    ∃ b, get_best_image_by_cloud_cover col aoiPix = some b ∧ b ∈ col ∧
      ∀ i ∈ col, get_cloud_percentage b aoiPix ≤ get_cloud_percentage i aoiPix := by
  simp only [get_best_image_by_cloud_cover]
  have hperm : List.Perm
      (List.insertionSort byPct (col.map (fun img => set_cloudiness aoiPix img)))
      (col.map (fun img => set_cloudiness aoiPix img)) :=
    List.perm_insertionSort byPct _
  have hsorted : List.Sorted byPct
      (List.insertionSort byPct (col.map (fun img => set_cloudiness aoiPix img))) :=
    List.sorted_insertionSort byPct _
  rcases hs : List.insertionSort byPct (col.map (fun img => set_cloudiness aoiPix img))
    with _ | ⟨hd, tl⟩
  · rw [hs] at hperm
    have : col.map (fun img => set_cloudiness aoiPix img) = [] := hperm.symm.eq_nil
    exact absurd (List.map_eq_nil_iff.mp this) h
  · rw [hs] at hperm hsorted
    have hhd : hd ∈ col.map (fun img => set_cloudiness aoiPix img) :=
      hperm.subset (List.mem_cons_self hd tl)
    obtain ⟨b, hb, hfb⟩ := List.mem_map.mp hhd
    refine ⟨hd.1, rfl, ?_, ?_⟩
    · rw [← hfb]; exact hb
    · intro i hi
      have hmem : set_cloudiness aoiPix i ∈ hd :: tl :=
        hperm.mem_iff.mpr (List.mem_map_of_mem _ hi)
      have hle : byPct hd (set_cloudiness aoiPix i) := by
        rcases List.mem_cons.mp hmem with heq | htl
        · rw [heq]; exact le_refl hd.2
        · exact List.rel_of_sorted_cons hsorted _ htl
      have h2 : hd.2 = get_cloud_percentage hd.1 aoiPix := by
        rw [← hfb]; rfl
      calc get_cloud_percentage hd.1 aoiPix = hd.2 := h2.symm
        _ ≤ (set_cloudiness aoiPix i).2 := hle
        _ = get_cloud_percentage i aoiPix := set_cloudiness_snd aoiPix i

/-- `get_best_image_by_cloud_cover` on the empty collection is `none`. -/
lemma get_best_nil (aoiPix : Finset ℕ) :
    get_best_image_by_cloud_cover [] aoiPix = none := rfl

/-- A returned best image is a member of the collection, of minimal AOI
cloud percentage. -/
lemma get_best_mem (col : List JoinedImage) (aoiPix : Finset ℕ)
    (b : JoinedImage) (hb : get_best_image_by_cloud_cover col aoiPix = some b) :
    b ∈ col ∧
      ∀ i ∈ col, get_cloud_percentage b aoiPix ≤ get_cloud_percentage i aoiPix := by
  have hne : col ≠ [] := by
    rintro rfl
    rw [get_best_nil] at hb
    exact Option.noConfusion hb
  obtain ⟨b', h1, h2, h3⟩ := get_best_spec col aoiPix hne
  rw [hb] at h1
  obtain rfl : b = b' := Option.some.inj h1
  exact ⟨h2, h3⟩

/-- A nonempty collection always yields a best image. -/
lemma get_best_isSome (col : List JoinedImage) (aoiPix : Finset ℕ)
    (h : col ≠ []) :
    ∃ b, get_best_image_by_cloud_cover col aoiPix = some b := by
  obtain ⟨b, hb, -, -⟩ := get_best_spec col aoiPix h
  exact ⟨b, hb⟩

/-- A returned best image can only come from a nonempty collection. -/
lemma get_best_ne_nil (col : List JoinedImage) (aoiPix : Finset ℕ)
    (b : JoinedImage) (hb : get_best_image_by_cloud_cover col aoiPix = some b) :
    col ≠ [] := by
  rintro rfl
  rw [get_best_nil] at hb
  exact Option.noConfusion hb

lemma try_export_image_def (env : Env) (nombre : String) (aoi : Geom)
    (startD endD : EDate) (epsg : String) :
    try_export_image env nombre aoi startD endD epsg =
      try_export_image_aux (1 + 1) env nombre aoi startD endD epsg := rfl

/-- Branch lemma: an unguarded `col.size().getInfo()` failure propagates the
exception; no row is written and no task started. -/
lemma aux_size_fail (env : Env) (nombre : String) (aoi : Geom)
    (startD endD : EDate) (epsg : String) (f : ℕ)
    (hsz : env.sizeInfoFails aoi startD endD = true) :
    try_export_image_aux (f + 1) env nombre aoi startD endD epsg =
      some ([], [], Except.error ()) := by
  simp [try_export_image_aux, hsz]

/-- Branch lemma: an empty collection writes a `"No images"` row with empty
percentage field and returns `False`. -/
lemma aux_no_images (env : Env) (nombre : String) (aoi : Geom)
    (startD endD : EDate) (epsg : String) (f : ℕ)
    (hsz : env.sizeInfoFails aoi startD endD = false)
    (hlen : (get_s2_sr_cld_col env aoi startD endD).length = 0) :
    try_export_image_aux (f + 1) env nombre aoi startD endD epsg =
      some ([⟨nombre, none, "No images"⟩], [], Except.ok false) := by
  simp [try_export_image_aux, hsz, hlen]

/-- Branch lemma: a guarded failure of the cloud-percentage `getInfo` writes
a `"Cloud error"` row with empty percentage field and returns `False`. -/
lemma aux_cloud_error (env : Env) (nombre : String) (aoi : Geom)
    (startD endD : EDate) (epsg : String) (f : ℕ)
    (hsz : env.sizeInfoFails aoi startD endD = false)
    (hlen : (get_s2_sr_cld_col env aoi startD endD).length ≠ 0)
    (hcl : env.cloudInfoFails aoi startD endD = true) :
    try_export_image_aux (f + 1) env nombre aoi startD endD epsg =
      some ([⟨nombre, none, "Cloud error"⟩], [], Except.ok false) := by
  have hne : get_s2_sr_cld_col env aoi startD endD ≠ [] := by
    intro h0
    exact hlen (by rw [h0]; rfl)
  obtain ⟨b, hb⟩ := get_best_isSome _ (env.regionPixels aoi) hne
  simp [try_export_image_aux, hsz, hlen, hb, hcl]

/-- Branch lemma: best percentage above the tolerance with a June window end
re-runs with the window end moved to July 15 of the same year. -/
lemma aux_retry (env : Env) (nombre : String) (aoi : Geom)
    (startD endD : EDate) (epsg : String) (f : ℕ) (img : JoinedImage)
    (hsz : env.sizeInfoFails aoi startD endD = false)
    (hb : get_best_image_by_cloud_cover (get_s2_sr_cld_col env aoi startD endD)
      (env.regionPixels aoi) = some img)
    (hcl : env.cloudInfoFails aoi startD endD = false)
    (hp : UMBRAL_NUBES < get_cloud_percentage img (env.regionPixels aoi))
    (h6 : endD.month = 6) :
    try_export_image_aux (f + 1) env nombre aoi startD endD epsg =
      try_export_image_aux f env nombre aoi startD ⟨endD.year, 7, 15⟩ epsg := by
  have hlen : (get_s2_sr_cld_col env aoi startD endD).length ≠ 0 := by
    intro h0
    exact get_best_ne_nil _ _ _ hb (List.length_eq_zero.mp h0)
  simp [try_export_image_aux, hsz, hlen, hb, hcl, hp, h6]

/-- Branch lemma: best percentage above the tolerance with a non-June window
end writes a `"Discarded"` row carrying the percentage and returns `False`. -/
lemma aux_discard (env : Env) (nombre : String) (aoi : Geom)
    (startD endD : EDate) (epsg : String) (f : ℕ) (img : JoinedImage)
    (hsz : env.sizeInfoFails aoi startD endD = false)
    (hb : get_best_image_by_cloud_cover (get_s2_sr_cld_col env aoi startD endD)
      (env.regionPixels aoi) = some img)
    (hcl : env.cloudInfoFails aoi startD endD = false)
    (hp : UMBRAL_NUBES < get_cloud_percentage img (env.regionPixels aoi))
    (h6 : endD.month ≠ 6) :
    try_export_image_aux (f + 1) env nombre aoi startD endD epsg =
      some ([⟨nombre, some (get_cloud_percentage img (env.regionPixels aoi)),
              "Discarded"⟩], [], Except.ok false) := by
  have hlen : (get_s2_sr_cld_col env aoi startD endD).length ≠ 0 := by
    intro h0
    exact get_best_ne_nil _ _ _ hb (List.length_eq_zero.mp h0)
  simp [try_export_image_aux, hsz, hlen, hb, hcl, hp, h6]

/-- Branch lemma: best percentage within the tolerance builds the masked
median composite over the current window, submits the export task, writes an
`"Exported"` row carrying the percentage, and returns `True`. -/
lemma aux_export (env : Env) (nombre : String) (aoi : Geom)
    (startD endD : EDate) (epsg : String) (f : ℕ) (img : JoinedImage)
    (hsz : env.sizeInfoFails aoi startD endD = false)
    (hb : get_best_image_by_cloud_cover (get_s2_sr_cld_col env aoi startD endD)
      (env.regionPixels aoi) = some img)
    (hcl : env.cloudInfoFails aoi startD endD = false)
    (hp : get_cloud_percentage img (env.regionPixels aoi) ≤ UMBRAL_NUBES) :
    try_export_image_aux (f + 1) env nombre aoi startD endD epsg =
      some ([⟨nombre, some (get_cloud_percentage img (env.regionPixels aoi)),
              "Exported"⟩],
            [⟨getCloudFreeComposite env aoi startD endD, "S2_" ++ nombre,
              "Incendios_Europa_años", nombre, aoi, epsg, 20⟩],
            Except.ok true) := by
  have hlen : (get_s2_sr_cld_col env aoi startD endD).length ≠ 0 := by
    intro h0
    exact get_best_ne_nil _ _ _ hb (List.length_eq_zero.mp h0)
  have hp' : ¬ UMBRAL_NUBES < get_cloud_percentage img (env.regionPixels aoi) :=
    not_lt.mpr hp
  simp [try_export_image_aux, hsz, hlen, hb, hcl, hp']

/-- When the window end month is not June the retry branch is unreachable, so
the result does not depend on the remaining fuel. -/
lemma aux_fuel_irrel (env : Env) (nombre : String) (aoi : Geom)
    (startD endD : EDate) (epsg : String) (h6 : endD.month ≠ 6) (f g : ℕ) :
    try_export_image_aux (f + 1) env nombre aoi startD endD epsg =
      try_export_image_aux (g + 1) env nombre aoi startD endD epsg := by
  by_cases hsz : env.sizeInfoFails aoi startD endD = true
  · rw [aux_size_fail env nombre aoi startD endD epsg f hsz,
      aux_size_fail env nombre aoi startD endD epsg g hsz]
  · simp only [Bool.not_eq_true] at hsz
    by_cases hlen : (get_s2_sr_cld_col env aoi startD endD).length = 0
    · rw [aux_no_images env nombre aoi startD endD epsg f hsz hlen,
        aux_no_images env nombre aoi startD endD epsg g hsz hlen]
    · have hne : get_s2_sr_cld_col env aoi startD endD ≠ [] := by
        intro h0
        exact hlen (by rw [h0]; rfl)
      obtain ⟨b, hb⟩ := get_best_isSome _ (env.regionPixels aoi) hne
      by_cases hcl : env.cloudInfoFails aoi startD endD = true
      · rw [aux_cloud_error env nombre aoi startD endD epsg f hsz hlen hcl,
          aux_cloud_error env nombre aoi startD endD epsg g hsz hlen hcl]
      · simp only [Bool.not_eq_true] at hcl
        by_cases hp : UMBRAL_NUBES < get_cloud_percentage b (env.regionPixels aoi)
        · rw [aux_discard env nombre aoi startD endD epsg f b hsz hb hcl hp h6,
            aux_discard env nombre aoi startD endD epsg g b hsz hb hcl hp h6]
        · rw [aux_export env nombre aoi startD endD epsg f b hsz hb hcl (not_lt.mp hp),
            aux_export env nombre aoi startD endD epsg g b hsz hb hcl (not_lt.mp hp)]

/-- The July 15 fallback date has month 7. -/
lemma july_month (y : ℤ) : (⟨y, 7, 15⟩ : EDate).month ≠ 6 := by
  show (7 : ℤ) ≠ 6
  decide

/-- When the window end month is not June, one unit of fuel suffices. -/
lemma aux_isSome_of_ne (env : Env) (nombre : String) (aoi : Geom)
    (startD endD : EDate) (epsg : String) (h6 : endD.month ≠ 6) (f : ℕ) :
    (try_export_image_aux (f + 1) env nombre aoi startD endD epsg).isSome = true := by
  by_cases hsz : env.sizeInfoFails aoi startD endD = true
  · rw [aux_size_fail env nombre aoi startD endD epsg f hsz]; rfl
  · simp only [Bool.not_eq_true] at hsz
    by_cases hlen : (get_s2_sr_cld_col env aoi startD endD).length = 0
    · rw [aux_no_images env nombre aoi startD endD epsg f hsz hlen]; rfl
    · have hne : get_s2_sr_cld_col env aoi startD endD ≠ [] := by
        intro h0
        exact hlen (by rw [h0]; rfl)
      obtain ⟨b, hb⟩ := get_best_isSome _ (env.regionPixels aoi) hne
      by_cases hcl : env.cloudInfoFails aoi startD endD = true
      · rw [aux_cloud_error env nombre aoi startD endD epsg f hsz hlen hcl]; rfl
      · simp only [Bool.not_eq_true] at hcl
        by_cases hp : UMBRAL_NUBES < get_cloud_percentage b (env.regionPixels aoi)
        · rw [aux_discard env nombre aoi startD endD epsg f b hsz hb hcl hp h6]; rfl
        · rw [aux_export env nombre aoi startD endD epsg f b hsz hb hcl (not_lt.mp hp)]
          rfl

/-- Fuel 2 always suffices: the retry recursion fires at most once, because
the fallback window end (July 15) is not in June. -/
lemma aux_isSome_two (env : Env) (nombre : String) (aoi : Geom)
    (startD endD : EDate) (epsg : String) :
    (try_export_image_aux (1 + 1) env nombre aoi startD endD epsg).isSome = true := by
  by_cases h6 : endD.month = 6
  · by_cases hsz : env.sizeInfoFails aoi startD endD = true
    · rw [aux_size_fail env nombre aoi startD endD epsg 1 hsz]; rfl
    · simp only [Bool.not_eq_true] at hsz
      by_cases hlen : (get_s2_sr_cld_col env aoi startD endD).length = 0
      · rw [aux_no_images env nombre aoi startD endD epsg 1 hsz hlen]; rfl
      · have hne : get_s2_sr_cld_col env aoi startD endD ≠ [] := by
          intro h0
          exact hlen (by rw [h0]; rfl)
        obtain ⟨b, hb⟩ := get_best_isSome _ (env.regionPixels aoi) hne
        by_cases hcl : env.cloudInfoFails aoi startD endD = true
        · rw [aux_cloud_error env nombre aoi startD endD epsg 1 hsz hlen hcl]; rfl
        · simp only [Bool.not_eq_true] at hcl
          by_cases hp : UMBRAL_NUBES < get_cloud_percentage b (env.regionPixels aoi)
          · rw [aux_retry env nombre aoi startD endD epsg 1 b hsz hb hcl hp h6]
            exact aux_isSome_of_ne env nombre aoi startD ⟨endD.year, 7, 15⟩ epsg
              (july_month endD.year) 0
          · rw [aux_export env nombre aoi startD endD epsg 1 b hsz hb hcl (not_lt.mp hp)]
            rfl
  · exact aux_isSome_of_ne env nombre aoi startD endD epsg h6 1

/-- Any fuel of at least 2 computes the same result as fuel 2: the recursion
depth of `try_export_image` is at most 1. -/
lemma aux_fuel_stable (env : Env) (nombre : String) (aoi : Geom)
    (startD endD : EDate) (epsg : String) (k : ℕ) :
    try_export_image_aux (k + 1 + 1) env nombre aoi startD endD epsg =
      try_export_image_aux (1 + 1) env nombre aoi startD endD epsg := by
  by_cases h6 : endD.month = 6
  · by_cases hsz : env.sizeInfoFails aoi startD endD = true
    · rw [aux_size_fail env nombre aoi startD endD epsg (k + 1) hsz,
        aux_size_fail env nombre aoi startD endD epsg 1 hsz]
    · simp only [Bool.not_eq_true] at hsz
      by_cases hlen : (get_s2_sr_cld_col env aoi startD endD).length = 0
      · rw [aux_no_images env nombre aoi startD endD epsg (k + 1) hsz hlen,
          aux_no_images env nombre aoi startD endD epsg 1 hsz hlen]
      · have hne : get_s2_sr_cld_col env aoi startD endD ≠ [] := by
          intro h0
          exact hlen (by rw [h0]; rfl)
        obtain ⟨b, hb⟩ := get_best_isSome _ (env.regionPixels aoi) hne
        by_cases hcl : env.cloudInfoFails aoi startD endD = true
        · rw [aux_cloud_error env nombre aoi startD endD epsg (k + 1) hsz hlen hcl,
            aux_cloud_error env nombre aoi startD endD epsg 1 hsz hlen hcl]
        · simp only [Bool.not_eq_true] at hcl
          by_cases hp : UMBRAL_NUBES < get_cloud_percentage b (env.regionPixels aoi)
          · rw [aux_retry env nombre aoi startD endD epsg (k + 1) b hsz hb hcl hp h6,
              aux_retry env nombre aoi startD endD epsg 1 b hsz hb hcl hp h6]
            exact aux_fuel_irrel env nombre aoi startD ⟨endD.year, 7, 15⟩ epsg
              (july_month endD.year) k 0
          · rw [aux_export env nombre aoi startD endD epsg (k + 1) b hsz hb hcl
                (not_lt.mp hp),
              aux_export env nombre aoi startD endD epsg 1 b hsz hb hcl (not_lt.mp hp)]
  · exact aux_fuel_irrel env nombre aoi startD endD epsg h6 (k + 1) 1

/-- Exhaustive outcome characterisation of `try_export_image_aux`: a returned
result is a propagated exception (no row, no task), a single `"No images"` or
`"Cloud error"` row with empty percentage field, a single `"Discarded"` row
carrying the best image's AOI percentage, or a single `"Exported"` row
together with exactly the one export task for the masked median composite of
some query window starting at `startD`. -/
lemma aux_cases (env : Env) (nombre : String) (aoi : Geom) (startD : EDate)
    (epsg : String) :
    ∀ (fuel : ℕ) (endD : EDate) (out : TryResult),
      try_export_image_aux (fuel + 1) env nombre aoi startD endD epsg = some out →
        out = ([], [], Except.error ())
        ∨ out = ([⟨nombre, none, "No images"⟩], [], Except.ok false)
        ∨ out = ([⟨nombre, none, "Cloud error"⟩], [], Except.ok false)
        ∨ (∃ e2 img,
            get_best_image_by_cloud_cover (get_s2_sr_cld_col env aoi startD e2)
              (env.regionPixels aoi) = some img ∧
            out = ([⟨nombre, some (get_cloud_percentage img (env.regionPixels aoi)),
                    "Discarded"⟩], [], Except.ok false))
        ∨ (∃ e2 img,
            get_best_image_by_cloud_cover (get_s2_sr_cld_col env aoi startD e2)
              (env.regionPixels aoi) = some img ∧
            get_cloud_percentage img (env.regionPixels aoi) ≤ UMBRAL_NUBES ∧
            out = ([⟨nombre, some (get_cloud_percentage img (env.regionPixels aoi)),
                    "Exported"⟩],
                   [⟨getCloudFreeComposite env aoi startD e2, "S2_" ++ nombre,
                     "Incendios_Europa_años", nombre, aoi, epsg, 20⟩],
                   Except.ok true)) := by
  intro fuel
  induction fuel with
  | zero =>
    intro endD out h
    by_cases hsz : env.sizeInfoFails aoi startD endD = true
    · rw [aux_size_fail env nombre aoi startD endD epsg 0 hsz] at h
      exact Or.inl (Option.some.inj h).symm
    · simp only [Bool.not_eq_true] at hsz
      by_cases hlen : (get_s2_sr_cld_col env aoi startD endD).length = 0
      · rw [aux_no_images env nombre aoi startD endD epsg 0 hsz hlen] at h
        exact Or.inr (Or.inl (Option.some.inj h).symm)
      · have hne : get_s2_sr_cld_col env aoi startD endD ≠ [] := by
          intro h0
          exact hlen (by rw [h0]; rfl)
        obtain ⟨b, hb⟩ := get_best_isSome _ (env.regionPixels aoi) hne
        by_cases hcl : env.cloudInfoFails aoi startD endD = true
        · rw [aux_cloud_error env nombre aoi startD endD epsg 0 hsz hlen hcl] at h
          exact Or.inr (Or.inr (Or.inl (Option.some.inj h).symm))
        · simp only [Bool.not_eq_true] at hcl
          by_cases hp : UMBRAL_NUBES < get_cloud_percentage b (env.regionPixels aoi)
          · by_cases h6 : endD.month = 6
            · rw [aux_retry env nombre aoi startD endD epsg 0 b hsz hb hcl hp h6] at h
              exact Option.noConfusion h
            · rw [aux_discard env nombre aoi startD endD epsg 0 b hsz hb hcl hp h6] at h
              exact Or.inr (Or.inr (Or.inr (Or.inl
                ⟨endD, b, hb, (Option.some.inj h).symm⟩)))
          · rw [aux_export env nombre aoi startD endD epsg 0 b hsz hb hcl
                (not_lt.mp hp)] at h
            exact Or.inr (Or.inr (Or.inr (Or.inr
              ⟨endD, b, hb, not_lt.mp hp, (Option.some.inj h).symm⟩)))
  | succ f ih =>
    intro endD out h
    by_cases hsz : env.sizeInfoFails aoi startD endD = true
    · rw [aux_size_fail env nombre aoi startD endD epsg (f + 1) hsz] at h
      exact Or.inl (Option.some.inj h).symm
    · simp only [Bool.not_eq_true] at hsz
      by_cases hlen : (get_s2_sr_cld_col env aoi startD endD).length = 0
      · rw [aux_no_images env nombre aoi startD endD epsg (f + 1) hsz hlen] at h
        exact Or.inr (Or.inl (Option.some.inj h).symm)
      · have hne : get_s2_sr_cld_col env aoi startD endD ≠ [] := by
          intro h0
          exact hlen (by rw [h0]; rfl)
        obtain ⟨b, hb⟩ := get_best_isSome _ (env.regionPixels aoi) hne
        by_cases hcl : env.cloudInfoFails aoi startD endD = true
        · rw [aux_cloud_error env nombre aoi startD endD epsg (f + 1) hsz hlen hcl] at h
          exact Or.inr (Or.inr (Or.inl (Option.some.inj h).symm))
        · simp only [Bool.not_eq_true] at hcl
          by_cases hp : UMBRAL_NUBES < get_cloud_percentage b (env.regionPixels aoi)
          · by_cases h6 : endD.month = 6
            · rw [aux_retry env nombre aoi startD endD epsg (f + 1) b hsz hb hcl hp h6]
                at h
              exact ih ⟨endD.year, 7, 15⟩ out h
            · rw [aux_discard env nombre aoi startD endD epsg (f + 1) b hsz hb hcl hp h6]
                at h
              exact Or.inr (Or.inr (Or.inr (Or.inl
                ⟨endD, b, hb, (Option.some.inj h).symm⟩)))
          · rw [aux_export env nombre aoi startD endD epsg (f + 1) b hsz hb hcl
                (not_lt.mp hp)] at h
            exact Or.inr (Or.inr (Or.inr (Or.inr
              ⟨endD, b, hb, not_lt.mp hp, (Option.some.inj h).symm⟩)))

/-- Under an environment whose `col.size().getInfo()` calls on this AOI never
fail, every returned outcome writes exactly one row. -/
lemma aux_one_row (env : Env) (nombre : String) (aoi : Geom) (startD : EDate)
    (epsg : String) (hs : ∀ a b : EDate, env.sizeInfoFails aoi a b = false) :
    ∀ (fuel : ℕ) (endD : EDate) (out : TryResult),
      try_export_image_aux (fuel + 1) env nombre aoi startD endD epsg = some out →
        out.1.length = 1 := by
  intro fuel
  induction fuel with
  | zero =>
    intro endD out h
    by_cases hlen : (get_s2_sr_cld_col env aoi startD endD).length = 0
    · rw [aux_no_images env nombre aoi startD endD epsg 0 (hs startD endD) hlen] at h
      rw [← Option.some.inj h]; rfl
    · have hne : get_s2_sr_cld_col env aoi startD endD ≠ [] := by
        intro h0
        exact hlen (by rw [h0]; rfl)
      obtain ⟨b, hb⟩ := get_best_isSome _ (env.regionPixels aoi) hne
      by_cases hcl : env.cloudInfoFails aoi startD endD = true
      · rw [aux_cloud_error env nombre aoi startD endD epsg 0 (hs startD endD) hlen hcl]
          at h
        rw [← Option.some.inj h]; rfl
      · simp only [Bool.not_eq_true] at hcl
        by_cases hp : UMBRAL_NUBES < get_cloud_percentage b (env.regionPixels aoi)
        · by_cases h6 : endD.month = 6
          · rw [aux_retry env nombre aoi startD endD epsg 0 b (hs startD endD) hb hcl
              hp h6] at h
            exact Option.noConfusion h
          · rw [aux_discard env nombre aoi startD endD epsg 0 b (hs startD endD) hb hcl
              hp h6] at h
            rw [← Option.some.inj h]; rfl
        · rw [aux_export env nombre aoi startD endD epsg 0 b (hs startD endD) hb hcl
            (not_lt.mp hp)] at h
          rw [← Option.some.inj h]; rfl
  | succ f ih =>
    intro endD out h
    by_cases hlen : (get_s2_sr_cld_col env aoi startD endD).length = 0
    · rw [aux_no_images env nombre aoi startD endD epsg (f + 1) (hs startD endD) hlen]
        at h
      rw [← Option.some.inj h]; rfl
    · have hne : get_s2_sr_cld_col env aoi startD endD ≠ [] := by
        intro h0
        exact hlen (by rw [h0]; rfl)
      obtain ⟨b, hb⟩ := get_best_isSome _ (env.regionPixels aoi) hne
      by_cases hcl : env.cloudInfoFails aoi startD endD = true
      · rw [aux_cloud_error env nombre aoi startD endD epsg (f + 1) (hs startD endD)
          hlen hcl] at h
        rw [← Option.some.inj h]; rfl
      · simp only [Bool.not_eq_true] at hcl
        by_cases hp : UMBRAL_NUBES < get_cloud_percentage b (env.regionPixels aoi)
        · by_cases h6 : endD.month = 6
          · rw [aux_retry env nombre aoi startD endD epsg (f + 1) b (hs startD endD)
              hb hcl hp h6] at h
            exact ih ⟨endD.year, 7, 15⟩ out h
          · rw [aux_discard env nombre aoi startD endD epsg (f + 1) b (hs startD endD)
              hb hcl hp h6] at h
            rw [← Option.some.inj h]; rfl
        · rw [aux_export env nombre aoi startD endD epsg (f + 1) b (hs startD endD)
            hb hcl (not_lt.mp hp)] at h
          rw [← Option.some.inj h]; rfl

/-- Accumulating fold over pairs of lists is the pair of flattened maps. -/
lemma foldl_acc_append {α β γ : Type} (g : α → List β × List γ) :
    ∀ (l : List α) (acc : List β × List γ),
      l.foldl (fun a x => (a.1 ++ (g x).1, a.2 ++ (g x).2)) acc =
        (acc.1 ++ (l.map (fun x => (g x).1)).flatten,
         acc.2 ++ (l.map (fun x => (g x).2)).flatten) := by
  intro l
  induction l with
  | nil => intro acc; simp
  | cons x xs ih =>
    intro acc
    rw [List.foldl_cons, ih]
    simp

/-- The AOI the script derives for a fire: bounding box buffered by 3000 m. -/
def aoiOf (incendio : Fire) : Geom :=
  Geom.buffer (Geom.bounds incendio.geometry) 3000

/-- The EPSG string the script derives for a fire: `"EPSG:258"` followed by
the two-digit UTM zone of the AOI centroid longitude. -/
def epsgOf (env : Env) (incendio : Fire) : String :=
  "EPSG:258" ++ pad2 (⌊(env.centroidLon (aoiOf incendio) + 180) / 6⌋ + 1)

/-- `process_feature` is the in-order concatenation of the rows and tasks of
the independent per-year attempts: a failing year contributes only what its
own attempt wrote, and later years are still processed. -/
lemma process_feature_eq (env : Env) (incendio : Fire) :
    process_feature env incendio =
      (((pyRange (incendio.initialdat.year + 1) 2024).map
          (fun anio => (yearAttempt env incendio.id (aoiOf incendio)
            (epsgOf env incendio) anio).1)).flatten,
       ((pyRange (incendio.initialdat.year + 1) 2024).map
          (fun anio => (yearAttempt env incendio.id (aoiOf incendio)
            (epsgOf env incendio) anio).2)).flatten) := by
  simp only [process_feature]
  rw [foldl_acc_append (yearAttempt env incendio.id
    (incendio.geometry.bounds.buffer 3000)
    ("EPSG:258" ++ pad2 (⌊(env.centroidLon (incendio.geometry.bounds.buffer 3000)
      + 180) / 6⌋ + 1)))]
  simp [aoiOf, epsgOf]

/-- The whole run is the header line followed by the serialised rows of the
fires processed in order; the tasks are those of the fires in order. -/
lemma run_script_eq (env : Env) (fires : List Fire) :
    run_script env fires =
      (headerLine ::
        ((fires.map (fun f => (process_feature env f).1)).flatten).map Row.toCsv,
       (fires.map (fun f => (process_feature env f).2)).flatten) := by
  simp only [run_script]
  rw [foldl_acc_append (process_feature env)]
  simp

/-- Outcome characterisation transported to `try_export_image` (fuel 2). -/
lemma try_cases (env : Env) (nombre : String) (aoi : Geom) (d1 d2 : EDate)
    (epsg : String) (out : TryResult)
    (h : try_export_image env nombre aoi d1 d2 epsg = some out) :
    out = ([], [], Except.error ())
    ∨ out = ([⟨nombre, none, "No images"⟩], [], Except.ok false)
    ∨ out = ([⟨nombre, none, "Cloud error"⟩], [], Except.ok false)
    ∨ (∃ e2 img,
        get_best_image_by_cloud_cover (get_s2_sr_cld_col env aoi d1 e2)
          (env.regionPixels aoi) = some img ∧
        out = ([⟨nombre, some (get_cloud_percentage img (env.regionPixels aoi)),
                "Discarded"⟩], [], Except.ok false))
    ∨ (∃ e2 img,
        get_best_image_by_cloud_cover (get_s2_sr_cld_col env aoi d1 e2)
          (env.regionPixels aoi) = some img ∧
        get_cloud_percentage img (env.regionPixels aoi) ≤ UMBRAL_NUBES ∧
        out = ([⟨nombre, some (get_cloud_percentage img (env.regionPixels aoi)),
                "Exported"⟩],
               [⟨getCloudFreeComposite env aoi d1 e2, "S2_" ++ nombre,
                 "Incendios_Europa_años", nombre, aoi, epsg, 20⟩],
               Except.ok true)) := by
  refine aux_cases env nombre aoi d1 epsg 1 d2 out ?_
  rw [← try_export_image_def]
  exact h

/-- Every row a `try_export_image` call writes carries the call's `nombre`,
a status from the fixed four-element set, an empty percentage field for the
`"No images"` and `"Cloud error"` statuses, and - when a percentage is
present - the AOI cloud percentage of the best image of a collection queried
with this AOI. -/
lemma try_rows_char (env : Env) (nombre : String) (aoi : Geom) (d1 d2 : EDate)
    (epsg : String) (out : TryResult)
    (h : try_export_image env nombre aoi d1 d2 epsg = some out)
    (r : Row) (hr : r ∈ out.1) :
    r.name = nombre ∧
    (r.status = "No images" ∨ r.status = "Cloud error" ∨
      r.status = "Discarded" ∨ r.status = "Exported") ∧
    ((r.status = "No images" ∨ r.status = "Cloud error") → r.pct = none) ∧
    (∀ q : ℚ, r.pct = some q → ∃ e2 img,
      img ∈ get_s2_sr_cld_col env aoi d1 e2 ∧
      q = get_cloud_percentage img (env.regionPixels aoi)) := by
  rcases try_cases env nombre aoi d1 d2 epsg out h with
    h1 | h1 | h1 | ⟨e2, img, hbest, h1⟩ | ⟨e2, img, hbest, hple, h1⟩
  · rw [h1] at hr
    exact absurd hr (List.not_mem_nil r)
  · rw [h1] at hr
    obtain rfl := List.mem_singleton.mp hr
    refine ⟨rfl, Or.inl rfl, fun _ => rfl, fun q hq => ?_⟩
    exact Option.noConfusion hq
  · rw [h1] at hr
    obtain rfl := List.mem_singleton.mp hr
    refine ⟨rfl, Or.inr (Or.inl rfl), fun _ => rfl, fun q hq => ?_⟩
    exact Option.noConfusion hq
  · rw [h1] at hr
    obtain rfl := List.mem_singleton.mp hr
    refine ⟨rfl, Or.inr (Or.inr (Or.inl rfl)), fun hst => ?_, fun q hq => ?_⟩
    · rcases hst with hst | hst <;> simp at hst
    · exact ⟨e2, img, (get_best_mem _ _ _ hbest).1, (Option.some.inj hq).symm⟩
  · rw [h1] at hr
    obtain rfl := List.mem_singleton.mp hr
    refine ⟨rfl, Or.inr (Or.inr (Or.inr rfl)), fun hst => ?_, fun q hq => ?_⟩
    · rcases hst with hst | hst <;> simp at hst
    · exact ⟨e2, img, (get_best_mem _ _ _ hbest).1, (Option.some.inj hq).symm⟩

/-- Every export task a `try_export_image` call starts uses the call's EPSG
string as CRS, the call's AOI as export region, scale 20, the fixed Drive
folder, names derived from `nombre`, and as image the masked median
composite of a collection queried with this AOI and window start. -/
lemma try_tasks_char (env : Env) (nombre : String) (aoi : Geom) (d1 d2 : EDate)
    (epsg : String) (out : TryResult)
    (h : try_export_image env nombre aoi d1 d2 epsg = some out)
    (t : ExportTask) (ht : t ∈ out.2.1) :
    t.crs = epsg ∧ t.region = aoi ∧ t.fileName = nombre ∧
    t.description = "S2_" ++ nombre ∧ t.folder = "Incendios_Europa_años" ∧
    t.scale = 20 ∧ ∃ e2, t.image = getCloudFreeComposite env aoi d1 e2 := by
  rcases try_cases env nombre aoi d1 d2 epsg out h with
    h1 | h1 | h1 | ⟨e2, img, hbest, h1⟩ | ⟨e2, img, hbest, hple, h1⟩
  · rw [h1] at ht
    exact absurd ht (List.not_mem_nil t)
  · rw [h1] at ht
    exact absurd ht (List.not_mem_nil t)
  · rw [h1] at ht
    exact absurd ht (List.not_mem_nil t)
  · rw [h1] at ht
    exact absurd ht (List.not_mem_nil t)
  · rw [h1] at ht
    obtain rfl := List.mem_singleton.mp ht
    exact ⟨rfl, rfl, rfl, rfl, rfl, rfl, e2, rfl⟩

/-- Under an environment with no unguarded `getInfo` failures on this AOI,
each per-year attempt writes exactly one row. -/
lemma yearAttempt_one_row (env : Env) (fid : String) (aoi : Geom)
    (epsg : String) (anio : ℤ)
    (hs : ∀ a b : EDate, env.sizeInfoFails aoi a b = false) :
    (yearAttempt env fid aoi epsg anio).1.length = 1 := by
  have hiss := aux_isSome_two env (fid ++ "_" ++ toString anio) aoi
    ⟨anio, 5, 15⟩ ⟨anio, 6, 15⟩ epsg
  rcases h : try_export_image env (fid ++ "_" ++ toString anio) aoi
      ⟨anio, 5, 15⟩ ⟨anio, 6, 15⟩ epsg with _ | out
  · rw [try_export_image_def] at h
    rw [h] at hiss
    exact Bool.noConfusion hiss
  · have h1 : (yearAttempt env fid aoi epsg anio).1 = out.1 := by
      rcases out with ⟨rows, tasks, res⟩
      simp [yearAttempt, h]
    rw [h1]
    refine aux_one_row env (fid ++ "_" ++ toString anio) aoi ⟨anio, 5, 15⟩ epsg hs 1
      ⟨anio, 6, 15⟩ out ?_
    rw [← try_export_image_def]
    exact h

/-- Length of a flattened map. -/
lemma flatten_length_map {α β : Type} :
    ∀ (l : List α) (f : α → List β),
      ((l.map f).flatten).length = (l.map (fun x => (f x).length)).sum := by
  intro l f
  induction l with
  | nil => rfl
  | cons x xs ih => simp [ih]

/-- Under an environment with no unguarded failures, `process_feature`
writes exactly one row per year of the loop. -/
lemma process_rows_len (env : Env) (incendio : Fire)
    (hs : ∀ (g : Geom) (a b : EDate), env.sizeInfoFails g a b = false) :
    (process_feature env incendio).1.length =
      (pyRange (incendio.initialdat.year + 1) 2024).length := by
  rw [process_feature_eq]
  simp only
  rw [flatten_length_map]
  have h1 : ∀ anio ∈ pyRange (incendio.initialdat.year + 1) 2024,
      (yearAttempt env incendio.id (aoiOf incendio) (epsgOf env incendio) anio).1.length
        = 1 := by
    intro anio _
    exact yearAttempt_one_row env incendio.id (aoiOf incendio) (epsgOf env incendio)
      anio (fun a b => hs (aoiOf incendio) a b)
  rw [List.map_congr_left h1]
  simp

/-- A row of a per-year attempt comes from the attempt's
`try_export_image` outcome. -/
lemma mem_yearAttempt_rows (env : Env) (fid : String) (aoi : Geom)
    (epsg : String) (anio : ℤ) (r : Row)
    (hr : r ∈ (yearAttempt env fid aoi epsg anio).1) :
    ∃ out, try_export_image env (fid ++ "_" ++ toString anio) aoi
        ⟨anio, 5, 15⟩ ⟨anio, 6, 15⟩ epsg = some out ∧ r ∈ out.1 := by
  rcases h : try_export_image env (fid ++ "_" ++ toString anio) aoi
      ⟨anio, 5, 15⟩ ⟨anio, 6, 15⟩ epsg with _ | out
  · simp [yearAttempt, h] at hr
  · refine ⟨out, rfl, ?_⟩
    rcases out with ⟨rows, tasks, res⟩
    simpa [yearAttempt, h] using hr

/-- A task of a per-year attempt comes from the attempt's
`try_export_image` outcome. -/
lemma mem_yearAttempt_tasks (env : Env) (fid : String) (aoi : Geom)
    (epsg : String) (anio : ℤ) (t : ExportTask)
    (ht : t ∈ (yearAttempt env fid aoi epsg anio).2) :
    ∃ out, try_export_image env (fid ++ "_" ++ toString anio) aoi
        ⟨anio, 5, 15⟩ ⟨anio, 6, 15⟩ epsg = some out ∧ t ∈ out.2.1 := by
  rcases h : try_export_image env (fid ++ "_" ++ toString anio) aoi
      ⟨anio, 5, 15⟩ ⟨anio, 6, 15⟩ epsg with _ | out
  · simp [yearAttempt, h] at ht
  · refine ⟨out, rfl, ?_⟩
    rcases out with ⟨rows, tasks, res⟩
    simpa [yearAttempt, h] using ht

/-- A row of `process_feature` comes from one of its per-year
`try_export_image` calls, issued with the fire's AOI and EPSG string. -/
lemma mem_process_rows (env : Env) (incendio : Fire) (r : Row)
    (hr : r ∈ (process_feature env incendio).1) :
    ∃ anio out,
      try_export_image env (incendio.id ++ "_" ++ toString anio)
        (aoiOf incendio) ⟨anio, 5, 15⟩ ⟨anio, 6, 15⟩ (epsgOf env incendio) =
          some out ∧ r ∈ out.1 := by
  rw [process_feature_eq] at hr
  obtain ⟨s, hs, hrs⟩ := List.mem_flatten.mp hr
  obtain ⟨anio, -, rfl⟩ := List.mem_map.mp hs
  obtain ⟨out, hout, hro⟩ := mem_yearAttempt_rows env incendio.id (aoiOf incendio)
    (epsgOf env incendio) anio r hrs
  exact ⟨anio, out, hout, hro⟩

/-- A task of `process_feature` comes from one of its per-year
`try_export_image` calls, issued with the fire's AOI and EPSG string. -/
lemma mem_process_tasks (env : Env) (incendio : Fire) (t : ExportTask)
    (ht : t ∈ (process_feature env incendio).2) :
    ∃ anio out,
      try_export_image env (incendio.id ++ "_" ++ toString anio)
        (aoiOf incendio) ⟨anio, 5, 15⟩ ⟨anio, 6, 15⟩ (epsgOf env incendio) =
          some out ∧ t ∈ out.2.1 := by
  rw [process_feature_eq] at ht
  obtain ⟨s, hs, hts⟩ := List.mem_flatten.mp ht
  obtain ⟨anio, -, rfl⟩ := List.mem_map.mp hs
  obtain ⟨out, hout, hto⟩ := mem_yearAttempt_tasks env incendio.id (aoiOf incendio)
    (epsgOf env incendio) anio t hts
  exact ⟨anio, out, hout, hto⟩

/-- Environment whose only image pair is the half-cloudy one (AOI percentage
50), used to exercise the retry and discard branches. -/
def envB : Env :=
  ⟨[sr2], [pr2], fun _ => {0, 1}, fun _ => -3,
   fun _ _ _ => false, fun _ _ _ => false⟩

/-- Environment where every `col.size().getInfo()` call fails. -/
def envFailAll : Env :=
  ⟨[], [], fun _ => {0, 1}, fun _ => -3,
   fun _ _ _ => true, fun _ _ _ => false⟩

/-- Environment where the guarded cloud-percentage `getInfo` call fails. -/
def envCloudFail : Env :=
  ⟨[sr1], [pr1], fun _ => {0, 1}, fun _ => -3,
   fun _ _ _ => false, fun _ _ _ => true⟩

/-- Environment where only the 2022 window's `col.size().getInfo()` fails. -/
def envFail2022 : Env :=
  ⟨[], [], fun _ => {0, 1}, fun _ => -3,
   fun _ d1 _ => decide (d1.year = 2022), fun _ _ _ => false⟩

/-- Fire whose year loop covers 2022 and 2023. -/
def fireB : Fire := ⟨"F", ⟨2021, 8, 1⟩, Geom.fireGeom 0⟩

/-- The single Exported row of the clean example run. -/
def rowA : Row := ⟨"F_2023", some 0, "Exported"⟩

/-- The single export task of the clean example run. -/
def taskA : ExportTask :=
  ⟨getCloudFreeComposite envA gAoi dMay dJun, "S2_F_2023",
   "Incendios_Europa_años", "F_2023", gAoi, "EPSG:25830", 20⟩

/-- Concrete evaluation: the clean single-fire run exports the cloud-free
2023 composite and writes one Exported row. -/
lemma procA_eval : process_feature envA fireA = ([rowA], [taskA]) := by
  with_unfolding_all rfl

/-- Concrete evaluation: the whole clean run writes the header and the one
Exported row. -/
lemma runA_eval :
    run_script envA [fireA] = ([headerLine, rowA.toCsv], [taskA]) := by
  with_unfolding_all rfl

/-- Concrete evaluation: the collection of the clean example window. -/
lemma colA_eval :
    get_s2_sr_cld_col envA gAoi dMay dJun = [⟨sr1, pr1⟩, ⟨sr2, pr2⟩] := rfl

/-- Membership in the joined collection implies the SR image passed the
bounds, date-window and cloud-metadata filters. -/
lemma mem_col_sr_filter (env : Env) (aoi : Geom) (d1 d2 : EDate)
    (i : JoinedImage) (hi : i ∈ get_s2_sr_cld_col env aoi d1 d2) :
    (i.sr.footprint ∩ env.regionPixels aoi).Nonempty ∧
    d1.ord ≤ i.sr.date ∧ i.sr.date < d2.ord ∧
    i.sr.cloudyPixelPercentage ≤ CLOUD_FILTER := by
  simp only [get_s2_sr_cld_col] at hi
  obtain ⟨a, ha, hmap⟩ := List.mem_filterMap.mp hi
  obtain ⟨c, hc, hac⟩ := Option.map_eq_some'.mp hmap
  obtain ⟨-, hpred⟩ := List.mem_filter.mp ha
  simp only [Bool.and_eq_true, decide_eq_true_eq] at hpred
  rw [← hac]
  exact ⟨hpred.1.1.1, hpred.1.1.2, hpred.1.2, hpred.2⟩

/-- C1: for every non-empty joined collection and AOI,
`get_best_image_by_cloud_cover` returns an image of the collection whose
AOI-restricted cloud percentage (pixels with cloud probability strictly
above `CLD_PRB_THRESH`, restricted to B8-valid pixels, masked area divided
by valid area, times 100 - this is `get_cloud_percentage`) is lowest, and
every image of the collection has `CLOUDY_PIXEL_PERCENTAGE` at most
`CLOUD_FILTER`. -/
theorem claim1_best_image_selection (env : Env) (aoi : Geom) (d1 d2 : EDate)
    (h : get_s2_sr_cld_col env aoi d1 d2 ≠ []) :
    ∃ b, get_best_image_by_cloud_cover (get_s2_sr_cld_col env aoi d1 d2)
        (env.regionPixels aoi) = some b ∧
      b ∈ get_s2_sr_cld_col env aoi d1 d2 ∧
      (∀ i ∈ get_s2_sr_cld_col env aoi d1 d2,
        get_cloud_percentage b (env.regionPixels aoi) ≤
          get_cloud_percentage i (env.regionPixels aoi)) ∧
      (∀ i ∈ get_s2_sr_cld_col env aoi d1 d2,
        i.sr.cloudyPixelPercentage ≤ CLOUD_FILTER) := by
  obtain ⟨b, hb, hmem, hmin⟩ := get_best_spec _ _ h
  exact ⟨b, hb, hmem, hmin,
    fun i hi => (mem_col_sr_filter env aoi d1 d2 i hi).2.2.2⟩

/-- Witness for C1 on the concrete two-image environment. -/
theorem claim1_witness :
    ∃ b, get_best_image_by_cloud_cover (get_s2_sr_cld_col envA gAoi dMay dJun)
        (envA.regionPixels gAoi) = some b ∧
      b ∈ get_s2_sr_cld_col envA gAoi dMay dJun ∧
      (∀ i ∈ get_s2_sr_cld_col envA gAoi dMay dJun,
        get_cloud_percentage b (envA.regionPixels gAoi) ≤
          get_cloud_percentage i (envA.regionPixels gAoi)) ∧
      (∀ i ∈ get_s2_sr_cld_col envA gAoi dMay dJun,
        i.sr.cloudyPixelPercentage ≤ CLOUD_FILTER) :=
  claim1_best_image_selection envA gAoi dMay dJun (by simp [colA_eval])

/-- C2: when the best candidate's AOI cloud percentage exceeds
`UMBRAL_NUBES`, a June window end re-runs the very same selection with the
window end moved to July 15 of the same year, while a non-June window end
writes a `"Discarded"` row carrying the percentage and returns `False`. -/
theorem claim2_retry_policy (env : Env) (nombre : String) (aoi : Geom)
    (d1 d2 : EDate) (epsg : String) (img : JoinedImage)
    (hsz : env.sizeInfoFails aoi d1 d2 = false)
    (hb : get_best_image_by_cloud_cover (get_s2_sr_cld_col env aoi d1 d2)
      (env.regionPixels aoi) = some img)
    (hcl : env.cloudInfoFails aoi d1 d2 = false)
    (hp : UMBRAL_NUBES < get_cloud_percentage img (env.regionPixels aoi)) :
    (d2.month = 6 →
      try_export_image env nombre aoi d1 d2 epsg =
        try_export_image env nombre aoi d1 ⟨d2.year, 7, 15⟩ epsg) ∧
    (d2.month ≠ 6 →
      try_export_image env nombre aoi d1 d2 epsg =
        some ([⟨nombre, some (get_cloud_percentage img (env.regionPixels aoi)),
          "Discarded"⟩], [], Except.ok false)) := by
  constructor
  · intro h6
    rw [try_export_image_def,
      aux_retry env nombre aoi d1 d2 epsg 1 img hsz hb hcl hp h6,
      try_export_image_def]
    exact aux_fuel_irrel env nombre aoi d1 ⟨d2.year, 7, 15⟩ epsg
      (july_month d2.year) 0 1
  · intro h6
    rw [try_export_image_def]
    exact aux_discard env nombre aoi d1 d2 epsg 1 img hsz hb hcl hp h6

/-- Witness for C2: the half-cloudy image (AOI percentage 50) triggers the
July retry for the June window and a Discarded row for the July window. -/
theorem claim2_witness :
    (try_export_image envB ("x") gAoi dMay dJun ("E") =
      try_export_image envB ("x") gAoi dMay ⟨2023, 7, 15⟩ ("E")) ∧
    (try_export_image envB ("x") gAoi dMay ⟨2023, 7, 15⟩ ("E") =
      some ([⟨"x", some (get_cloud_percentage ⟨sr2, pr2⟩ (envB.regionPixels gAoi)),
        "Discarded"⟩], [], Except.ok false)) :=
  ⟨(claim2_retry_policy envB ("x") gAoi dMay dJun ("E") ⟨sr2, pr2⟩ rfl
      (by with_unfolding_all rfl) rfl (by with_unfolding_all decide)).1 rfl,
   (claim2_retry_policy envB ("x") gAoi dMay ⟨2023, 7, 15⟩ ("E") ⟨sr2, pr2⟩ rfl
      (by with_unfolding_all rfl) rfl (by with_unfolding_all decide)).2
      (by decide)⟩

/-- C7: `try_export_image` terminates on every input: fuel 2 is never
exhausted, and any larger fuel computes the same result, because the
fallback window end (July 15) is not in June, so the fallback invocation
never retries again. -/
theorem claim7_termination (env : Env) (nombre : String) (aoi : Geom)
    (d1 d2 : EDate) (epsg : String) :
    (try_export_image_aux 2 env nombre aoi d1 d2 epsg).isSome = true ∧
    ∀ k : ℕ, try_export_image_aux (k + 1 + 1) env nombre aoi d1 d2 epsg =
      try_export_image_aux 2 env nombre aoi d1 d2 epsg :=
  ⟨aux_isSome_two env nombre aoi d1 d2 epsg,
   fun k => aux_fuel_stable env nombre aoi d1 d2 epsg k⟩

/-- C9: the percentage `set_cloudiness` stores (used for ranking inside
`get_best_image_by_cloud_cover`) is exactly the value `get_cloud_percentage`
computes (used for the threshold decision). -/
theorem claim9_percentage_agreement (aoiPix : Finset ℕ) (img : JoinedImage) :
    (set_cloudiness aoiPix img).2 = get_cloud_percentage img aoiPix := rfl

/-- C10: `try_export_image` returns `True` exactly when it wrote an
`"Exported"` row and started exactly one export task; a `False` return
starts no task and writes exactly one row with status `"No images"`,
`"Cloud error"` or `"Discarded"`, the first two with an empty percentage
field; a propagated exception writes nothing and starts nothing. -/
theorem claim10_return_value (env : Env) (nombre : String) (aoi : Geom)
    (d1 d2 : EDate) (epsg : String) (rows : List Row) (tasks : List ExportTask)
    (res : Except Unit Bool)
    (h : try_export_image env nombre aoi d1 d2 epsg = some (rows, tasks, res)) :
    (res = Except.ok true →
      ∃ q, rows = [⟨nombre, some q, "Exported"⟩] ∧ tasks.length = 1) ∧
    (res = Except.ok false → tasks = [] ∧
      ∃ oq st, rows = [⟨nombre, oq, st⟩] ∧
        (st = "No images" ∨ st = "Cloud error" ∨ st = "Discarded") ∧
        ((st = "No images" ∨ st = "Cloud error") → oq = none)) ∧
    (∀ u : Unit, res = Except.error u → rows = [] ∧ tasks = []) := by
  rcases try_cases env nombre aoi d1 d2 epsg (rows, tasks, res) h with
    h1 | h1 | h1 | ⟨e2, img, hbest, h1⟩ | ⟨e2, img, hbest, hple, h1⟩ <;>
    (injection h1 with ha hbc; injection hbc with hbb hcc;
     subst ha; subst hbb; subst hcc)
  · refine ⟨fun hx => ?_, fun hx => ?_, fun u _ => ⟨rfl, rfl⟩⟩
    · exact Except.noConfusion hx
    · exact Except.noConfusion hx
  · refine ⟨fun hx => ?_, fun _ => ⟨rfl, none, "No images", rfl, Or.inl rfl,
      fun _ => rfl⟩, fun u hu => ?_⟩
    · exact Bool.noConfusion (Except.ok.inj hx)
    · exact Except.noConfusion hu
  · refine ⟨fun hx => ?_, fun _ => ⟨rfl, none, "Cloud error", rfl,
      Or.inr (Or.inl rfl), fun _ => rfl⟩, fun u hu => ?_⟩
    · exact Bool.noConfusion (Except.ok.inj hx)
    · exact Except.noConfusion hu
  · refine ⟨fun hx => ?_, fun _ => ⟨rfl,
      some (get_cloud_percentage img (env.regionPixels aoi)), "Discarded", rfl,
      Or.inr (Or.inr rfl), fun hst => ?_⟩, fun u hu => ?_⟩
    · exact Bool.noConfusion (Except.ok.inj hx)
    · rcases hst with hst | hst <;> simp at hst
    · exact Except.noConfusion hu
  · refine ⟨fun _ => ⟨get_cloud_percentage img (env.regionPixels aoi), rfl, rfl⟩,
      fun hx => ?_, fun u hu => ?_⟩
    · exact Bool.noConfusion (Except.ok.inj hx)
    · exact Except.noConfusion hu

/-- Witness for C10 on the clean exporting run. -/
theorem claim10_witness :
    ∃ q, [rowA] = [(⟨"F_2023", some q, "Exported"⟩ : Row)] ∧
      ([taskA] : List ExportTask).length = 1 :=
  (claim10_return_value envA ("F_2023") gAoi dMay dJun ("EPSG:25830")
    [rowA] [taskA] (Except.ok true) (by with_unfolding_all rfl)).1 rfl

/-- C5: every export task of a run carries the CRS string
`"EPSG:258" ++ zz` with `zz` the two-digit UTM zone
`floor((lon + 180) / 6) + 1` of the AOI centroid longitude, the AOI as
region and scale 20; and whenever the best candidate's AOI percentage does
not exceed the tolerance, `try_export_image` submits exactly the
cloud/shadow-masked median composite of the window clipped to the AOI,
writes an `"Exported"` row, and returns `True`. -/
theorem claim5_export_trigger :
    (∀ (env : Env) (incendio : Fire) (t : ExportTask),
      t ∈ (process_feature env incendio).2 →
        t.crs = "EPSG:258" ++ pad2 (⌊(env.centroidLon
            (Geom.buffer (Geom.bounds incendio.geometry) 3000) + 180) / 6⌋ + 1) ∧
        t.region = Geom.buffer (Geom.bounds incendio.geometry) 3000 ∧
        t.scale = 20) ∧
    (∀ (env : Env) (nombre : String) (aoi : Geom) (d1 d2 : EDate)
      (epsg : String) (img : JoinedImage),
      env.sizeInfoFails aoi d1 d2 = false →
      get_best_image_by_cloud_cover (get_s2_sr_cld_col env aoi d1 d2)
        (env.regionPixels aoi) = some img →
      env.cloudInfoFails aoi d1 d2 = false →
      get_cloud_percentage img (env.regionPixels aoi) ≤ UMBRAL_NUBES →
      try_export_image env nombre aoi d1 d2 epsg =
        some ([⟨nombre, some (get_cloud_percentage img (env.regionPixels aoi)),
                "Exported"⟩],
              [⟨getCloudFreeComposite env aoi d1 d2, "S2_" ++ nombre,
                "Incendios_Europa_años", nombre, aoi, epsg, 20⟩],
              Except.ok true)) := by
  constructor
  · intro env incendio t ht
    obtain ⟨anio, out, hout, hto⟩ := mem_process_tasks env incendio t ht
    obtain ⟨hcrs, hreg, -, -, -, hscale, -⟩ :=
      try_tasks_char env _ _ _ _ _ out hout t hto
    exact ⟨hcrs, hreg, hscale⟩
  · intro env nombre aoi d1 d2 epsg img hsz hb hcl hp
    rw [try_export_image_def]
    exact aux_export env nombre aoi d1 d2 epsg 1 img hsz hb hcl hp

/-- Witness for C5 on the clean exporting run. -/
theorem claim5_witness :
    (taskA.crs = "EPSG:258" ++ pad2 (⌊(envA.centroidLon
        (Geom.buffer (Geom.bounds fireA.geometry) 3000) + 180) / 6⌋ + 1) ∧
      taskA.region = Geom.buffer (Geom.bounds fireA.geometry) 3000 ∧
      taskA.scale = 20) ∧
    try_export_image envA ("F_2023") gAoi dMay dJun ("EPSG:25830") =
      some ([⟨"F_2023",
              some (get_cloud_percentage ⟨sr1, pr1⟩ (envA.regionPixels gAoi)),
              "Exported"⟩],
            [⟨getCloudFreeComposite envA gAoi dMay dJun, "S2_F_2023",
              "Incendios_Europa_años", "F_2023", gAoi, "EPSG:25830", 20⟩],
            Except.ok true) :=
  ⟨claim5_export_trigger.1 envA fireA taskA
      (by rw [show (process_feature envA fireA).2 = [taskA] from
          congrArg Prod.snd procA_eval]; exact List.mem_singleton.mpr rfl),
   claim5_export_trigger.2 envA ("F_2023") gAoi dMay dJun ("EPSG:25830") ⟨sr1, pr1⟩
      rfl (by with_unfolding_all rfl) rfl (by with_unfolding_all decide)⟩

/-- C8: every export task of a fire's run has as region the fire geometry's
bounding box buffered by 3000 m and as image a composite of a collection
queried and clipped with that AOI; and every percentage a row carries is the
AOI cloud percentage of an image of a collection queried with that AOI. -/
theorem claim8_aoi_usage (env : Env) (incendio : Fire) :
    (∀ t ∈ (process_feature env incendio).2,
      t.region = Geom.buffer (Geom.bounds incendio.geometry) 3000 ∧
      ∃ d1 d2, t.image = getCloudFreeComposite env
        (Geom.buffer (Geom.bounds incendio.geometry) 3000) d1 d2) ∧
    (∀ r ∈ (process_feature env incendio).1, ∀ q : ℚ, r.pct = some q →
      ∃ d1 d2 img, img ∈ get_s2_sr_cld_col env
          (Geom.buffer (Geom.bounds incendio.geometry) 3000) d1 d2 ∧
        q = get_cloud_percentage img
          (env.regionPixels (Geom.buffer (Geom.bounds incendio.geometry) 3000))) := by
  constructor
  · intro t ht
    obtain ⟨anio, out, hout, hto⟩ := mem_process_tasks env incendio t ht
    obtain ⟨-, hreg, -, -, -, -, e2, himg⟩ :=
      try_tasks_char env _ _ _ _ _ out hout t hto
    exact ⟨hreg, ⟨anio, 5, 15⟩, e2, himg⟩
  · intro r hr q hq
    obtain ⟨anio, out, hout, hro⟩ := mem_process_rows env incendio r hr
    obtain ⟨-, -, -, hprov⟩ := try_rows_char env _ _ _ _ _ out hout r hro
    obtain ⟨e2, img, hmem, hval⟩ := hprov q hq
    exact ⟨⟨anio, 5, 15⟩, e2, img, hmem, hval⟩

/-- Witness for C8 on the clean exporting run. -/
theorem claim8_witness :
    (taskA.region = Geom.buffer (Geom.bounds fireA.geometry) 3000 ∧
      ∃ d1 d2, taskA.image = getCloudFreeComposite envA
        (Geom.buffer (Geom.bounds fireA.geometry) 3000) d1 d2) ∧
    (∃ d1 d2 img, img ∈ get_s2_sr_cld_col envA
        (Geom.buffer (Geom.bounds fireA.geometry) 3000) d1 d2 ∧
      (0 : ℚ) = get_cloud_percentage img
        (envA.regionPixels (Geom.buffer (Geom.bounds fireA.geometry) 3000))) :=
  ⟨(claim8_aoi_usage envA fireA).1 taskA
      (by rw [show (process_feature envA fireA).2 = [taskA] from
          congrArg Prod.snd procA_eval]; exact List.mem_singleton.mpr rfl),
   (claim8_aoi_usage envA fireA).2 rowA
      (by rw [show (process_feature envA fireA).1 = [rowA] from
          congrArg Prod.fst procA_eval]; exact List.mem_singleton.mpr rfl)
      0 rfl⟩

/-- Counterexample to C3 as stated: on a run where the 2022 attempt's
unguarded `col.size().getInfo()` call raises, the exception is caught by
`process_feature`, processing continues with 2023 (whose `"No images"` row
is written), but no row at all - in particular no error-status row - is
written for the failed 2022 attempt. -/
theorem claim3_counterexample :
    try_export_image envFail2022 ("F_2022") gAoi ⟨2022, 5, 15⟩ ⟨2022, 6, 15⟩
        "EPSG:25830" = some ([], [], Except.error ()) ∧
    process_feature envFail2022 fireB =
      ([⟨"F_2023", none, "No images"⟩], []) := by
  constructor
  · with_unfolding_all rfl
  · with_unfolding_all rfl

/-- C3 as amended: an error in the guarded cloud-statistics step is caught
and recorded as a `"Cloud error"` row; any other failure of an attempt
propagates out of `try_export_image` with no row written (it is only caught
and logged by `process_feature`); and processing is row-level isolated -
the run is the concatenation of the independent per-year attempts, so no
attempt's failure aborts the loop. -/
theorem claim3_amended_error_handling :
    (∀ (env : Env) (nombre : String) (aoi : Geom) (d1 d2 : EDate)
      (epsg : String) (f : ℕ),
      env.sizeInfoFails aoi d1 d2 = true →
      try_export_image_aux (f + 1) env nombre aoi d1 d2 epsg =
        some ([], [], Except.error ())) ∧
    (∀ (env : Env) (nombre : String) (aoi : Geom) (d1 d2 : EDate)
      (epsg : String) (f : ℕ),
      env.sizeInfoFails aoi d1 d2 = false →
      (get_s2_sr_cld_col env aoi d1 d2).length ≠ 0 →
      env.cloudInfoFails aoi d1 d2 = true →
      try_export_image_aux (f + 1) env nombre aoi d1 d2 epsg =
        some ([⟨nombre, none, "Cloud error"⟩], [], Except.ok false)) ∧
    (∀ (env : Env) (incendio : Fire),
      process_feature env incendio =
        (((pyRange (incendio.initialdat.year + 1) 2024).map
            (fun anio => (yearAttempt env incendio.id (aoiOf incendio)
              (epsgOf env incendio) anio).1)).flatten,
         ((pyRange (incendio.initialdat.year + 1) 2024).map
            (fun anio => (yearAttempt env incendio.id (aoiOf incendio)
              (epsgOf env incendio) anio).2)).flatten)) :=
  ⟨fun env nombre aoi d1 d2 epsg f h =>
      aux_size_fail env nombre aoi d1 d2 epsg f h,
   fun env nombre aoi d1 d2 epsg f h1 h2 h3 =>
      aux_cloud_error env nombre aoi d1 d2 epsg f h1 h2 h3,
   fun env incendio => process_feature_eq env incendio⟩

/-- Witness for the amended C3 on concrete failing environments. -/
theorem claim3_witness :
    (try_export_image_aux (0 + 1) envFailAll ("x") gAoi dMay dJun ("E") =
      some ([], [], Except.error ())) ∧
    (try_export_image_aux (0 + 1) envCloudFail ("x") gAoi dMay dJun ("E") =
      some ([⟨"x", none, "Cloud error"⟩], [], Except.ok false)) ∧
    process_feature envA fireA =
      (((pyRange (fireA.initialdat.year + 1) 2024).map
          (fun anio => (yearAttempt envA fireA.id (aoiOf fireA)
            (epsgOf envA fireA) anio).1)).flatten,
       ((pyRange (fireA.initialdat.year + 1) 2024).map
          (fun anio => (yearAttempt envA fireA.id (aoiOf fireA)
            (epsgOf envA fireA) anio).2)).flatten) :=
  ⟨claim3_amended_error_handling.1 envFailAll ("x") gAoi dMay dJun ("E") 0 rfl,
   claim3_amended_error_handling.2.1 envCloudFail ("x") gAoi dMay dJun ("E") 0 rfl
     (by rw [show get_s2_sr_cld_col envCloudFail gAoi dMay dJun = [⟨sr1, pr1⟩]
         from rfl]; simp) rfl,
   claim3_amended_error_handling.2.2 envA fireA⟩

/-- Any returned outcome of `try_export_image_aux` writes at most one row,
under every environment, failures included. -/
lemma aux_rows_le_one (env : Env) (nombre : String) (aoi : Geom)
    (d1 : EDate) (epsg : String) (fuel : ℕ) (endD : EDate) (out : TryResult)
    (h : try_export_image_aux (fuel + 1) env nombre aoi d1 endD epsg = some out) :
    out.1.length ≤ 1 := by
  rcases aux_cases env nombre aoi d1 epsg fuel endD out h with
    h1 | h1 | h1 | ⟨e2, img, hb, h1⟩ | ⟨e2, img, hb, hp, h1⟩ <;> rw [h1] <;> simp

/-- Every per-year attempt writes at most one row, under every environment,
failures included: a propagated exception writes none, every other outcome
exactly one. -/
lemma yearAttempt_rows_le_one (env : Env) (fid : String) (aoi : Geom)
    (epsg : String) (anio : ℤ) :
    (yearAttempt env fid aoi epsg anio).1.length ≤ 1 := by
  rcases h : try_export_image env (fid ++ "_" ++ toString anio) aoi
      ⟨anio, 5, 15⟩ ⟨anio, 6, 15⟩ epsg with _ | out
  · simp [yearAttempt, h]
  · have h1 : (yearAttempt env fid aoi epsg anio).1 = out.1 := by
      rcases out with ⟨rows, tasks, res⟩
      simp [yearAttempt, h]
    rw [h1]
    refine aux_rows_le_one env (fid ++ "_" ++ toString anio) aoi ⟨anio, 5, 15⟩
      epsg 1 ⟨anio, 6, 15⟩ out ?_
    rw [← try_export_image_def]
    exact h

/-- Sum of ones over a list is its length. -/
lemma sum_map_one {α : Type} (l : List α) :
    (l.map (fun _ => (1 : ℕ))).sum = l.length := by
  induction l with
  | nil => rfl
  | cons x xs ih => simp [ih, Nat.add_comm]

/-- Under every environment, `process_feature` writes at most one row per
year of its loop. -/
lemma process_rows_le (env : Env) (incendio : Fire) :
    (process_feature env incendio).1.length ≤
      (pyRange (incendio.initialdat.year + 1) 2024).length := by
  rw [process_feature_eq]
  simp only
  rw [flatten_length_map]
  calc ((pyRange (incendio.initialdat.year + 1) 2024).map
          (fun anio => (yearAttempt env incendio.id (aoiOf incendio)
            (epsgOf env incendio) anio).1.length)).sum
      ≤ ((pyRange (incendio.initialdat.year + 1) 2024).map (fun _ => 1)).sum :=
        List.sum_le_sum (fun anio _ => yearAttempt_rows_le_one env incendio.id
          (aoiOf incendio) (epsgOf env incendio) anio)
    _ = (pyRange (incendio.initialdat.year + 1) 2024).length :=
        sum_map_one (pyRange (incendio.initialdat.year + 1) 2024)

/-- Counterexample to C4 as stated: a run with one fire-year attempt whose
unguarded `getInfo` call raises produces a file with the header only - zero
data rows for one attempt, not exactly one. -/
theorem claim4_counterexample :
    run_script envFailAll [fireA] = ([headerLine], []) ∧
    (pyRange (fireA.initialdat.year + 1) 2024).length = 1 := by
  constructor
  · with_unfolding_all rfl
  · rfl

/-- C4 as amended: the output file begins with the header line; every data
line is the serialisation of a row whose status is one of the four fixed
statuses; and when no unguarded `getInfo` failure occurs, the file has
exactly one data line per fire-year attempt. -/
theorem claim4_amended_output_table (env : Env) (fires : List Fire) :
    (run_script env fires).1.head? = some headerLine ∧
    (∀ line ∈ (run_script env fires).1.tail, ∃ r : Row, line = r.toCsv ∧
      (r.status = "No images" ∨ r.status = "Cloud error" ∨
        r.status = "Discarded" ∨ r.status = "Exported")) ∧
    (∀ (fid : String) (aoi : Geom) (epsg : String) (anio : ℤ),
      (yearAttempt env fid aoi epsg anio).1.length ≤ 1) ∧
    ((run_script env fires).1.length ≤
      1 + (fires.map (fun f =>
        (pyRange (f.initialdat.year + 1) 2024).length)).sum) ∧
    ((∀ (g : Geom) (a b : EDate), env.sizeInfoFails g a b = false) →
      (run_script env fires).1.length =
        1 + (fires.map (fun f =>
          (pyRange (f.initialdat.year + 1) 2024).length)).sum) := by
  refine ⟨?_, ?_, ?_, ?_, ?_⟩
  · rw [run_script_eq]
    rfl
  · intro line hline
    rw [run_script_eq] at hline
    simp only [List.tail_cons] at hline
    obtain ⟨r, hr, rfl⟩ := List.mem_map.mp hline
    obtain ⟨rows, hrows, hrr⟩ := List.mem_flatten.mp hr
    obtain ⟨f, -, rfl⟩ := List.mem_map.mp hrows
    obtain ⟨anio, out, hout, hro⟩ := mem_process_rows env f r hrr
    obtain ⟨-, hstatus, -, -⟩ := try_rows_char env _ _ _ _ _ out hout r hro
    exact ⟨r, rfl, hstatus⟩
  · intro fid aoi epsg anio
    exact yearAttempt_rows_le_one env fid aoi epsg anio
  · rw [run_script_eq]
    simp only [List.length_cons, List.length_map]
    rw [flatten_length_map]
    have h1 : (fires.map (fun f => (process_feature env f).1.length)).sum ≤
        (fires.map (fun f =>
          (pyRange (f.initialdat.year + 1) 2024).length)).sum :=
      List.sum_le_sum (fun f _ => process_rows_le env f)
    omega
  · intro hs
    rw [run_script_eq]
    simp only [List.length_cons, List.length_map]
    rw [flatten_length_map]
    have h1 : ∀ f ∈ fires, (process_feature env f).1.length =
        (pyRange (f.initialdat.year + 1) 2024).length := by
      intro f _
      exact process_rows_len env f hs
    rw [List.map_congr_left h1]
    omega

/-- Witness for the amended C4 on the clean single-fire run and, for the
per-attempt bound, also on an always-failing environment. -/
theorem claim4_witness :
    (run_script envA [fireA]).1.head? = some headerLine ∧
    (∃ r : Row, rowA.toCsv = r.toCsv ∧
      (r.status = "No images" ∨ r.status = "Cloud error" ∨
        r.status = "Discarded" ∨ r.status = "Exported")) ∧
    (yearAttempt envA fireA.id (aoiOf fireA) (epsgOf envA fireA) 2023).1.length ≤ 1 ∧
    (yearAttempt envFailAll ("x") gAoi ("E") 2023).1.length ≤ 1 ∧
    (run_script envA [fireA]).1.length ≤
      1 + ([fireA].map (fun f =>
        (pyRange (f.initialdat.year + 1) 2024).length)).sum ∧
    (run_script envA [fireA]).1.length =
      1 + ([fireA].map (fun f =>
        (pyRange (f.initialdat.year + 1) 2024).length)).sum :=
  ⟨(claim4_amended_output_table envA [fireA]).1,
   (claim4_amended_output_table envA [fireA]).2.1 rowA.toCsv
     (by rw [show (run_script envA [fireA]).1 = [headerLine, rowA.toCsv] from
         congrArg Prod.fst runA_eval]; simp),
   (claim4_amended_output_table envA [fireA]).2.2.1 fireA.id (aoiOf fireA)
     (epsgOf envA fireA) 2023,
   (claim4_amended_output_table envFailAll []).2.2.1 ("x") gAoi ("E") 2023,
   (claim4_amended_output_table envA [fireA]).2.2.2.1,
   (claim4_amended_output_table envA [fireA]).2.2.2.2 (fun _ _ _ => rfl)⟩

/-- C6 evaluation: the year loop `range(anioInicio + 1, 2024)` stops at
2023 - for a fire of start year 2022 it processes only 2023, and for no
start year does any processed year exceed 2023, contradicting the
documented "up to 2024 (inclusive)". -/
theorem claim6_year_range_eval :
    pyRange (2022 + 1) 2024 = [2023] ∧
    ∀ a : ℤ, (pyRange (a + 1) 2024).all (fun y => decide (y ≤ 2023)) = true := by
  refine ⟨by decide, ?_⟩
  intro a
  rw [List.all_eq_true]
  intro y hy
  rw [pyRange] at hy
  obtain ⟨i, hi, rfl⟩ := List.mem_map.mp hy
  rw [List.mem_range] at hi
  rw [decide_eq_true_eq]
  simp only [Int.ofNat_eq_natCast]
  omega
